import Mathlib

set_option maxHeartbeats 1000000

namespace SendTo

/-! Shallow embedding of the file-dispatch engine in src/send_to/send_to.py
(module send_to, version 0.4.0).

Modelling conventions: strings stay Lean strings; the filesystem is the
collection of existing paths (FS, a list used as a set); user hooks are total
Lean functions and an unassigned hook attribute is modelled as none; Python
exceptions that escape are modelled with Except.  Each exception handler in the
source catches exactly the exception class written there, so the AttributeError
raised by reading an unset class attribute is recovered only where the source
writes an AttributeError handler (the subdir call); the TypeError handlers
around the skip, rename and post_process calls do not catch it.  Console output
is not modelled except for the per-file operation line (source line 502), which
is recorded as an event because it exhibits the computed destination path.
Interactions with the datetime library are abstracted into an oracle record
(DateEnv) whose fields are documented as the exact library calls they stand
for; prompt responses are supplied as inputs. -/

/-- The filesystem namespace: the list of paths that currently exist. -/
abbrev FS := List String

/-- Whitespace stripped by Python around the argument of int. -/
def isPySpace (c : Char) : Bool :=
  c = ' ' || c = '\t' || c = '\n' || c = '\r' || c = '\x0b' || c = '\x0c'

/-- Strip leading and trailing whitespace from a character list. -/
def pyStrip (l : List Char) : List Char :=
  ((l.dropWhile isPySpace).reverse.dropWhile isPySpace).reverse

/-- Body of a Python decimal integer literal after the first digit: digits with
single underscores allowed strictly between digits. -/
def pyDigitsCore : List Char → Bool
  | [] => true
  | '_' :: [] => false
  | '_' :: d :: rest => d.isDigit && pyDigitsCore rest
  | c :: rest => c.isDigit && pyDigitsCore rest

/-- A nonempty digit run (with embedded underscores) starting with a digit. -/
def pyDigitsValid : List Char → Bool
  | [] => false
  | c :: rest => c.isDigit && pyDigitsCore rest

/-- Numeric value of a digit run, ignoring underscores (48 is the code of the
zero digit). -/
def digitsToNat (l : List Char) : Nat :=
  l.foldl (fun acc c => if c.isDigit then acc * 10 + (c.toNat - 48) else acc) 0

/-- Python int applied to a string: optional surrounding whitespace, optional
sign, decimal digits with underscores between digits.  none models the
ValueError that int raises on any other input. -/
def pyInt (s : String) : Option Int :=
  match pyStrip s.toList with
  | '-' :: rest => if pyDigitsValid rest then some (-(digitsToNat rest : Int)) else none
  | '+' :: rest => if pyDigitsValid rest then some ((digitsToNat rest : Int)) else none
  | l => if pyDigitsValid l then some ((digitsToNat l : Int)) else none

/-- The part of a path after the last path separator, as os.path.basename
computes it on the platform the source targets (both separators accepted). -/
def basename (p : String) : String :=
  (p.toList.foldl (fun acc c => if c = '/' || c = '\\' then [] else acc ++ [c]) []).asString

/-- The module attribute holding the engine version string. -/
def version_string : String := "0.4.0"

/-- The VersionPart enum of the source. -/
inductive VersionPart
  | MAJOR
  | MINOR
  | PATCH
  deriving DecidableEq, Repr

/-- str.split on the dot character, as used by semver_str_to_int. -/
def splitDots : List Char → List Char → List String
  | [], acc => [acc.asString]
  | '.' :: rest, acc => acc.asString :: splitDots rest []
  | c :: rest, acc => splitDots rest (acc ++ [c])

/-- semver_str_to_int from the source: pick one dot-separated component and
convert it with int.  none stands for the ValueError a malformed component
would raise (never hit on the fixed engine version string). -/
def semver_str_to_int (version : String) (part : VersionPart) : Option Int :=
  let parts := splitDots version.toList []
  let ver :=
    match part with
    | VersionPart.MAJOR => parts.getD 0 ""
    | VersionPart.MINOR => parts.getD 1 ""
    | VersionPart.PATCH => parts.getD 2 ""
  pyInt ver

/-- The engine's compiled major version: semver_str_to_int applied to the
module version string (evaluates to 0 for version 0.4.0). -/
def script_maj_ver : Int := (semver_str_to_int version_string VersionPart.MAJOR).getD (-1)

/-- The Operation enum of the source. -/
inductive Operation
  | MOVE
  | COPY
  deriving DecidableEq, Repr

/-- operation_to_str from the source: continuous and past tense words for the
console messages.  The defensive invalid-operation branch of the source is
unreachable over the two-constructor enum. -/
def operation_to_str : Operation → String × String
  | Operation.MOVE => ("moving", "moved")
  | Operation.COPY => ("copying", "copied")

/-- The Info record threaded through the run and passed to every hook. -/
structure Info where
  file_path : String
  dst_path : String
  date : String
  desc : String
  deriving DecidableEq, Repr

/-- The Cfg class of the source.  The four hook attributes have no default in
the source class, so a slot the caller never assigned is none here; reading it
in Python raises AttributeError. -/
structure Cfg where
  version : Int
  dst_path : String
  operation : Operation
  date_fmt : String
  ask_for_date : Bool
  ask_for_desc : Bool
  overwrite_file : Bool
  dry_run : Bool
  debug : Bool
  subdir : Option (Info → String)
  skip : Option (Info → Bool)
  rename : Option (Info → String)
  post_process : Option (String → Unit)

/-- The ways a run terminates abnormally: the two exception classes declared by
the source, the sys.exit on an empty file list, and the two exception escapes
that no handler in the source catches (ValueError from int inside the date
resolver's except-block, AttributeError from an unset hook attribute at a call
site whose handler only catches TypeError). -/
inductive RunError
  | incompatibleCfgVersion
  | noFilesProvided
  | invalidDateInput
  | valueError
  | attributeError
  deriving DecidableEq, Repr

/-- Observable actions of a run, in program order: successful date resolution,
each hook invocation with its argument and result, each directory-creation
attempt, the per-file operation line printed at source line 502 (it carries the
computed destination path), and each move or copy. -/
inductive Event
  | dateResolved (date : String)
  | hookSubdir (name : String)
  | mkdirOk (path : String)
  | mkdirExists (path : String)
  | hookSkip (file : String) (result : Bool)
  | hookRename (file : String) (result : String)
  | printOp (verb : String) (src : String) (dst : String)
  | fsMove (src : String) (dst : String)
  | fsCopy (src : String) (dst : String)
  | hookPost (path : String)
  deriving DecidableEq, Repr

/-- Events that touch the filesystem: directory-creation attempts and the move
or copy operations. -/
def fsEvent : Event → Bool
  | Event.mkdirOk _ => true
  | Event.mkdirExists _ => true
  | Event.fsMove _ _ => true
  | Event.fsCopy _ _ => true
  | _ => false

/-- Oracle for the datetime-library calls the date resolver makes:
strptime_ok s fmt is whether datetime.strptime applied to s and fmt succeeds
(false models its ValueError); today_fmt fmt is today's date formatted with
fmt by strftime; shift_fmt n fmt is the date n days before today formatted
with fmt (the strftime of now minus a timedelta of n days). -/
structure DateEnv where
  strptime_ok : String → String → Bool
  today_fmt : String → String
  shift_fmt : Nat → String → String

/-- determine_date from the source (lines 347-383).  user_input is the response
to the date prompt.  Note that the source calls int on the response inside the
except-block of strptime, so when int itself fails the resulting ValueError
escapes uncaught (RunError.valueError); InvalidDateInput is raised only when
int succeeds but the value is outside the day-shift range. -/
def determine_date (env : DateEnv) (ask_for_date : Bool) (date_fmt : String)
    (user_input : String) : Except RunError String :=
  if ask_for_date then
    let date := user_input
    if env.strptime_ok date date_fmt then
      Except.ok date
    else
      if date = "" then
        Except.ok (env.today_fmt date_fmt)
      else
        match pyInt date with
        | none => Except.error RunError.valueError
        | some n =>
          if n < 0 ∧ n > -8 then
            Except.ok (env.shift_fmt n.natAbs date_fmt)
          else
            Except.error RunError.invalidDateInput
  else
    Except.ok (env.today_fmt date_fmt)

/-- The ambient inputs of a run: the date oracle and the two prompt responses. -/
structure SendToEnv where
  dateEnv : DateEnv
  date_input : String
  desc_input : String

/-- The subdirectory stage of send_to (source lines 448-470): call the subdir
hook (its absence raises AttributeError, which this site catches, recovering
the neutral empty name); on a nonempty name, append it to the destination path
with a literal backslash and, unless dry_run, attempt os.mkdir, recovering
FileExistsError silently. -/
def resolve_subdir (cfg : Cfg) (info : Info) (fs : FS) : Info × FS × List Event :=
  let subdir_name :=
    match cfg.subdir with
    | some f => f info
    | none => ""
  let evs :=
    match cfg.subdir with
    | some f => [Event.hookSubdir (f info)]
    | none => []
  if subdir_name ≠ "" then
    let info2 := { info with dst_path := cfg.dst_path ++ "\\" ++ subdir_name }
    if cfg.dry_run = false then
      if fs.contains info2.dst_path then
        (info2, fs, evs ++ [Event.mkdirExists info2.dst_path])
      else
        (info2, info2.dst_path :: fs, evs ++ [Event.mkdirOk info2.dst_path])
    else
      (info2, fs, evs)
  else
    ({ info with dst_path := cfg.dst_path }, fs, evs)

/-- Result of one iteration of the per-file loop: the outcome (an escaped
exception aborts the whole run), the updated shared Info record, the filesystem
and the events of this iteration. -/
structure StepOut where
  outcome : Except RunError Unit
  info : Info
  fs : FS
  events : List Event

/-- One iteration of the per-file loop (source lines 472-525).  The skip,
rename and post_process call sites only catch TypeError, so an unassigned hook
in any of these three slots escapes as attributeError.  The conflict check
reads the filesystem just before the operation; on a conflict without
overwrite_file the operation branch is skipped, but the post_process call that
follows it is outside that branch and runs for every file that reaches it, as
it also does under dry_run. -/
def process_one (cfg : Cfg) (op_cont : String) (info : Info) (file : String) (fs : FS) :
    StepOut :=
  let info2 := { info with file_path := file }
  match cfg.skip with
  | none => ⟨Except.error RunError.attributeError, info2, fs, []⟩
  | some skipf =>
    if skipf info2 then
      ⟨Except.ok (), info2, fs, [Event.hookSkip file true]⟩
    else
      match cfg.rename with
      | none => ⟨Except.error RunError.attributeError, info2, fs, [Event.hookSkip file false]⟩
      | some renamef =>
        let ren := renamef info2
        let new_file_name := if ren = "" then basename file else ren
        let new_file := info2.dst_path ++ "\\" ++ new_file_name
        let evs0 := [Event.hookSkip file false, Event.hookRename file ren,
                     Event.printOp op_cont file new_file]
        let file_exists := fs.contains new_file
        let step :=
          if file_exists && !cfg.overwrite_file then
            (fs, ([] : List Event))
          else if cfg.dry_run = false then
            match cfg.operation with
            | Operation.MOVE => (new_file :: fs.erase file, [Event.fsMove file new_file])
            | Operation.COPY => (new_file :: fs, [Event.fsCopy file new_file])
          else
            (fs, ([] : List Event))
        match cfg.post_process with
        | none => ⟨Except.error RunError.attributeError, info2, step.1, evs0 ++ step.2⟩
        | some _ => ⟨Except.ok (), info2, step.1, evs0 ++ step.2 ++ [Event.hookPost new_file]⟩

/-- Result of a whole run. -/
structure RunOut where
  outcome : Except RunError Unit
  fs : FS
  events : List Event

/-- The per-file loop folded over the file list in the supplied order,
threading the shared Info record and the filesystem; an escaped exception
aborts the loop. -/
def process_files (cfg : Cfg) (op_cont : String) : List String → Info → FS → RunOut
  | [], _, fs => ⟨Except.ok (), fs, []⟩
  | file :: rest, info, fs =>
    let r := process_one cfg op_cont info file fs
    match r.outcome with
    | Except.error e => ⟨Except.error e, r.fs, r.events⟩
    | Except.ok _ =>
      let rr := process_files cfg op_cont rest r.info r.fs
      ⟨rr.outcome, rr.fs, r.events ++ rr.events⟩

/-- send_to from the source (lines 394-530): version gate, empty-file-list
gate, date resolution, description collection, subdirectory stage, then the
per-file loop.  files stands for the argument list the script received. -/
def send_to (env : SendToEnv) (cfg : Cfg) (files : List String) (fs0 : FS) : RunOut :=
  if script_maj_ver ≠ cfg.version then
    ⟨Except.error RunError.incompatibleCfgVersion, fs0, []⟩
  else
    let op_cont := (operation_to_str cfg.operation).1
    if files.length = 0 then
      ⟨Except.error RunError.noFilesProvided, fs0, []⟩
    else
      match determine_date env.dateEnv cfg.ask_for_date cfg.date_fmt env.date_input with
      | Except.error e => ⟨Except.error e, fs0, []⟩
      | Except.ok date =>
        let desc := if cfg.ask_for_desc then env.desc_input else ""
        let info : Info := { file_path := "", dst_path := cfg.dst_path, date := date, desc := desc }
        match resolve_subdir cfg info fs0 with
        | (info2, fs1, evs1) =>
          match process_files cfg op_cont files info2 fs1 with
          | ⟨out, fs2, evs2⟩ => ⟨out, fs2, Event.dateResolved date :: (evs1 ++ evs2)⟩

/-! Concrete fixtures used by the closed counterexample and witness theorems
below.  The date oracle matches the behavior of the real library on the inputs
used there: none of the inputs fed to it parses against the date format, and
the formatted dates are fixed sample strings. -/

/-- A date oracle under which no prompt response parses against the format. -/
def testDateEnv : DateEnv :=
  { strptime_ok := fun _ _ => false,
    today_fmt := fun _ => "2026-10-12",
    shift_fmt := fun n _ => "2026-10-12-minus-" ++ (List.replicate n 'd').asString }

/-- Ambient inputs for concrete runs: blank prompt responses. -/
def testEnv : SendToEnv := { dateEnv := testDateEnv, date_input := "", desc_input := "" }

/-- A matching-version configuration with no hooks assigned. -/
def cfgBase : Cfg :=
  { version := 0, dst_path := "out", operation := Operation.COPY, date_fmt := "%Y-%m-%d",
    ask_for_date := false, ask_for_desc := false, overwrite_file := false,
    dry_run := false, debug := false,
    subdir := none, skip := none, rename := none, post_process := none }

/-- A skip hook that never skips. -/
def skFalse : Info → Bool := fun _ => false

/-- A skip hook that always skips. -/
def skTrue : Info → Bool := fun _ => true

/-- A rename hook that keeps the original name. -/
def rnEmpty : Info → String := fun _ => ""

/-- A post-process hook. -/
def ppNoop : String → Unit := fun _ => ()

/-- A subdirectory hook returning a fixed nonempty name. -/
def sdNamed : Info → String := fun _ => "sub"

/-- cfgBase with the skip, rename and post_process hooks assigned. -/
def cfgHooks : Cfg :=
  { cfgBase with skip := some skFalse, rename := some rnEmpty, post_process := some ppNoop }

/-- cfgHooks in dry-run mode. -/
def cfgDry : Cfg := { cfgHooks with dry_run := true }

/-- cfgHooks with an always-true skip hook. -/
def cfgSkip : Cfg := { cfgHooks with skip := some skTrue }

/-- cfgHooks with a subdirectory hook. -/
def cfgSub : Cfg := { cfgHooks with subdir := some sdNamed }

/-- The Info record at the start of the per-file loop for cfgBase-style runs. -/
def infoT : Info := { file_path := "", dst_path := "out", date := "2026-10-12", desc := "" }

/-! Helper lemmas shared by the claim theorems. -/

/-- Python int of the empty string raises (models the ValueError). -/
theorem pyInt_empty : pyInt "" = none := rfl

/-- Unfolding equation for the per-file loop on a nonempty list. -/
theorem process_files_cons (cfg : Cfg) (op file : String) (rest : List String) (info : Info)
    (fs : FS) :
    process_files cfg op (file :: rest) info fs =
      (let r := process_one cfg op info file fs
       match r.outcome with
       | Except.error e => ⟨Except.error e, r.fs, r.events⟩
       | Except.ok _ =>
         let rr := process_files cfg op rest r.info r.fs
         ⟨rr.outcome, rr.fs, r.events ++ rr.events⟩) := by
  rw [process_files]

/-- Every non-skipped file with assigned skip and rename hooks reaches the
operation line, which records the computed destination path: the effective
destination directory joined to the resolved name by a literal backslash. -/
theorem printOp_mem (cfg : Cfg) (op file : String) (info : Info) (fs : FS)
    (sk : Info → Bool) (rn : Info → String)
    (hsk : cfg.skip = some sk) (hrn : cfg.rename = some rn)
    (hns : sk { info with file_path := file } = false) :
    Event.printOp op file (info.dst_path ++ "\\" ++
      (if rn { info with file_path := file } = "" then basename file
       else rn { info with file_path := file })) ∈ (process_one cfg op info file fs).events := by
  unfold process_one
  rw [hsk, hrn]
  simp only [hns, Bool.false_eq_true, if_false]
  cases hpp : cfg.post_process <;> simp

/-- Under dry_run a loop iteration leaves the filesystem unchanged and emits no
filesystem event. -/
theorem process_one_dry (cfg : Cfg) (op : String) (info : Info) (file : String) (fs : FS)
    (h : cfg.dry_run = true) :
    (process_one cfg op info file fs).fs = fs ∧
    (process_one cfg op info file fs).events.all (fun e => !fsEvent e) = true := by
  unfold process_one
  cases hsk : cfg.skip with
  | none => simp
  | some skipf =>
    by_cases hs : skipf { info with file_path := file } = true
    · simp [hs, fsEvent]
    · simp only [Bool.not_eq_true] at hs
      cases hrn : cfg.rename with
      | none => simp [hs, fsEvent]
      | some renamef =>
        cases hpp : cfg.post_process with
        | none => simp [hs, h, fsEvent]
        | some pp => simp [hs, h, fsEvent]

/-- Under dry_run the whole per-file loop leaves the filesystem unchanged and
emits no filesystem event. -/
theorem process_files_dry (cfg : Cfg) (op : String) (h : cfg.dry_run = true) :
    ∀ (files : List String) (info : Info) (fs : FS),
      (process_files cfg op files info fs).fs = fs ∧
      (process_files cfg op files info fs).events.all (fun e => !fsEvent e) = true := by
  intro files
  induction files with
  | nil => intro info fs; simp [process_files]
  | cons file rest ih =>
    intro info fs
    have h1 := process_one_dry cfg op info file fs h
    rw [process_files_cons]
    cases hr : (process_one cfg op info file fs).outcome with
    | error e =>
      simp only [hr]
      exact ⟨h1.1, h1.2⟩
    | ok u =>
      simp only [hr]
      have h2 := ih (process_one cfg op info file fs).info (process_one cfg op info file fs).fs
      refine ⟨by rw [h2.1, h1.1], ?_⟩
      simp only [List.all_append]
      rw [h1.2, h2.2]
      rfl

/-- Under dry_run the subdirectory stage leaves the filesystem unchanged and
emits no filesystem event. -/
theorem resolve_subdir_dry (cfg : Cfg) (info : Info) (fs : FS) (h : cfg.dry_run = true) :
    (resolve_subdir cfg info fs).2.1 = fs ∧
    (resolve_subdir cfg info fs).2.2.all (fun e => !fsEvent e) = true := by
  unfold resolve_subdir
  cases hsd : cfg.subdir with
  | none => simp [fsEvent]
  | some sd =>
    by_cases hn : sd info = ""
    · simp [hn, fsEvent]
    · simp [hn, h, fsEvent]

/-! The claim theorems. -/

/-- C5: for every configuration whose major version differs from the engine's
compiled major version, the run fails with the IncompatibleCfgVersion error as
its first action: the result carries the untouched filesystem and an empty
event trace, so no date resolution, no hook call and no filesystem operation
happened. -/
theorem send_to_incompatible_version (env : SendToEnv) (cfg : Cfg) (files : List String)
    (fs0 : FS) (h : cfg.version ≠ script_maj_ver) :
    send_to env cfg files fs0 =
      ⟨Except.error RunError.incompatibleCfgVersion, fs0, []⟩ := by
  unfold send_to
  rw [if_pos (Ne.symm h)]

/-- C5 witness: configuration version 1 against engine major version 0. -/
theorem send_to_incompatible_version_witness :
    send_to testEnv { cfgBase with version := 1 } ["a.txt"] [] =
      ⟨Except.error RunError.incompatibleCfgVersion, [], []⟩ :=
  send_to_incompatible_version testEnv { cfgBase with version := 1 } ["a.txt"] [] (by decide)

/-- C7: with a matching configuration version, an empty file list makes the run
fail with NoFilesProvided (the sys.exit of the source) before any date
resolution, hook call or filesystem operation: untouched filesystem, empty
event trace. -/
theorem send_to_no_files (env : SendToEnv) (cfg : Cfg) (fs0 : FS)
    (h : cfg.version = script_maj_ver) :
    send_to env cfg [] fs0 = ⟨Except.error RunError.noFilesProvided, fs0, []⟩ := by
  simp [send_to, h]

/-- C7 witness: the hook-free matching-version configuration with no files. -/
theorem send_to_no_files_witness :
    send_to testEnv cfgBase [] [] = ⟨Except.error RunError.noFilesProvided, [], []⟩ :=
  send_to_no_files testEnv cfgBase [] (by decide)

/-- C4 counterexample: the response abc is non-blank, does not parse against
the date format, and is not an integer, yet date resolution does not fail with
InvalidDateInput: the int call inside the strptime except-block raises a
ValueError that nothing catches. -/
theorem determine_date_invalid_input_cex :
    determine_date testDateEnv true "%Y-%m-%d" "abc" = Except.error RunError.valueError ∧
    RunError.valueError ≠ RunError.invalidDateInput :=
  ⟨rfl, by decide⟩

/-- C4 (amended): a non-blank, non-parsing date-prompt response that parses as
a Python integer outside the day-shift range fails with InvalidDateInput; a
non-blank, non-parsing response that is not an integer fails with the uncaught
ValueError raised by the int call instead. -/
theorem determine_date_invalid_input (env : DateEnv) (fmt s : String)
    (hp : env.strptime_ok s fmt = false) (hb : s ≠ "") :
    (∀ n : Int, pyInt s = some n → ¬(-7 ≤ n ∧ n ≤ -1) →
        determine_date env true fmt s = Except.error RunError.invalidDateInput) ∧
    (pyInt s = none → determine_date env true fmt s = Except.error RunError.valueError) := by
  constructor
  · intro n hn hrange
    unfold determine_date
    rw [if_pos rfl, if_neg (by simp [hp]), if_neg hb, hn]
    simp only
    rw [if_neg (by omega)]
  · intro hn
    unfold determine_date
    rw [if_pos rfl, if_neg (by simp [hp]), if_neg hb, hn]

/-- C4 witness: the out-of-range integer response -9 fails with
InvalidDateInput. -/
theorem determine_date_invalid_input_witness :
    determine_date testDateEnv true "%Y-%m-%d" "-9" = Except.error RunError.invalidDateInput :=
  (determine_date_invalid_input testDateEnv "%Y-%m-%d" "-9" rfl (by decide)).1 (-9) rfl (by decide)

/-- C6: in prompt mode, a non-parsing response that is the decimal string of an
integer between -7 and -1 resolves to the date that many days before today,
formatted with the date format (the shift_fmt field of the oracle is exactly
that library call); a blank non-parsing response resolves to today's formatted
date; a response that parses against the date format is returned exactly as
typed. -/
theorem determine_date_prompt_resolution (env : DateEnv) (fmt s : String) (n : Int)
    (hp : env.strptime_ok s fmt = false) (hn : pyInt s = some n)
    (h1 : -7 ≤ n) (h2 : n ≤ -1) :
    determine_date env true fmt s = Except.ok (env.shift_fmt n.natAbs fmt) ∧
    (env.strptime_ok "" fmt = false →
      determine_date env true fmt "" = Except.ok (env.today_fmt fmt)) ∧
    (∀ t, env.strptime_ok t fmt = true → determine_date env true fmt t = Except.ok t) := by
  refine ⟨?_, ?_, ?_⟩
  · have hb : s ≠ "" := by
      intro he
      rw [he, pyInt_empty] at hn
      exact Option.noConfusion hn
    unfold determine_date
    rw [if_pos rfl, if_neg (by simp [hp]), if_neg hb, hn]
    simp only
    rw [if_pos (by omega)]
  · intro he
    unfold determine_date
    rw [if_pos rfl, if_neg (by simp [he]), if_pos rfl]
  · intro t ht
    unfold determine_date
    rw [if_pos rfl, if_pos (by simp [ht])]

/-- C6 witness: the response -3 resolves to the formatted date three days
before today. -/
theorem determine_date_prompt_resolution_witness :
    determine_date testDateEnv true "%Y-%m-%d" "-3" =
      Except.ok (testDateEnv.shift_fmt (Int.natAbs (-3)) "%Y-%m-%d") :=
  (determine_date_prompt_resolution testDateEnv "%Y-%m-%d" "-3" (-3) rfl rfl (by decide)
    (by decide)).1

/-- C3 (code bug): with no hooks assigned the subdirectory stage recovers the
missing subdir hook to the neutral empty name (its call site catches
AttributeError), but the per-file loop aborts the run with the escaped
AttributeError of the unset skip attribute, because that call site only
catches TypeError; the absence is surfaced instead of being recovered to the
neutral default the claim describes. -/
theorem hook_absence_attribute_error :
    (resolve_subdir cfgBase infoT []).1.dst_path = cfgBase.dst_path ∧
    send_to testEnv cfgBase ["a.txt"] [] =
      ⟨Except.error RunError.attributeError, [], [Event.dateResolved "2026-10-12"]⟩ :=
  ⟨rfl, rfl⟩

/-- C8: a file for which the skip hook returns true produces only its skip
event: the rename and post-process hooks are not invoked for it, the
filesystem is untouched by it, and the loop continues with the remaining files
in the supplied order. -/
theorem skip_policy (cfg : Cfg) (op file : String) (rest : List String) (info : Info)
    (fs : FS) (sk : Info → Bool) (hsk : cfg.skip = some sk)
    (ht : sk { info with file_path := file } = true) :
    process_one cfg op info file fs =
      ⟨Except.ok (), { info with file_path := file }, fs, [Event.hookSkip file true]⟩ ∧
    (process_files cfg op (file :: rest) info fs).outcome =
      (process_files cfg op rest { info with file_path := file } fs).outcome ∧
    (process_files cfg op (file :: rest) info fs).fs =
      (process_files cfg op rest { info with file_path := file } fs).fs ∧
    (process_files cfg op (file :: rest) info fs).events =
      Event.hookSkip file true ::
        (process_files cfg op rest { info with file_path := file } fs).events := by
  have h1 : process_one cfg op info file fs =
      ⟨Except.ok (), { info with file_path := file }, fs, [Event.hookSkip file true]⟩ := by
    unfold process_one
    rw [hsk]
    simp [ht]
  refine ⟨h1, ?_⟩
  rw [process_files_cons, h1]
  simp

/-- C8 witness: an always-skipping hook on the first of two files. -/
theorem skip_policy_witness :
    process_one cfgSkip "copying" infoT "a.txt" [] =
      ⟨Except.ok (), { infoT with file_path := "a.txt" }, [], [Event.hookSkip "a.txt" true]⟩ ∧
    (process_files cfgSkip "copying" ["a.txt", "b.txt"] infoT []).events =
      Event.hookSkip "a.txt" true ::
        (process_files cfgSkip "copying" ["b.txt"] { infoT with file_path := "a.txt" } []).events :=
  ⟨(skip_policy cfgSkip "copying" "a.txt" ["b.txt"] infoT [] skTrue rfl rfl).1,
   (skip_policy cfgSkip "copying" "a.txt" ["b.txt"] infoT [] skTrue rfl rfl).2.2.2⟩

/-- C1 counterexample: a run step whose computed destination already exists and
whose configuration has overwrite disabled leaves the filesystem unchanged, yet
still invokes the post-processor for that file, contradicting the claim that
the post-processor is not invoked in the conflict-skip case. -/
theorem conflict_policy_cex :
    cfgHooks.overwrite_file = false ∧
    (["out\\a.txt"] : FS).contains "out\\a.txt" = true ∧
    Event.hookPost "out\\a.txt" ∈
      (process_one cfgHooks "copying" infoT "a.txt" ["out\\a.txt"]).events ∧
    (process_one cfgHooks "copying" infoT "a.txt" ["out\\a.txt"]).fs = ["out\\a.txt"] := by
  refine ⟨rfl, rfl, ?_, rfl⟩
  decide

/-- C1 (amended): for a non-skipped file whose computed destination path
already exists, with overwrite_file false the move or copy is not performed
(the filesystem is returned unchanged, with no move or copy event) but the
post-processor is still invoked exactly once with the destination path, since
the source's post-process call sits outside the conflict branch; with
overwrite_file true (and dry_run false) the operation is performed over the
existing file and the post-processor is invoked exactly once. -/
theorem conflict_policy (cfg : Cfg) (op file : String) (info : Info) (fs : FS)
    (sk : Info → Bool) (rn : Info → String) (pp : String → Unit) (nf : String)
    (hsk : cfg.skip = some sk) (hrn : cfg.rename = some rn) (hpp : cfg.post_process = some pp)
    (hns : sk { info with file_path := file } = false)
    (hnf : nf = info.dst_path ++ "\\" ++
      (if rn { info with file_path := file } = "" then basename file
       else rn { info with file_path := file }))
    (hex : fs.contains nf = true) :
    (cfg.overwrite_file = false →
       process_one cfg op info file fs =
         ⟨Except.ok (), { info with file_path := file }, fs,
          [Event.hookSkip file false, Event.hookRename file (rn { info with file_path := file }),
           Event.printOp op file nf, Event.hookPost nf]⟩) ∧
    (cfg.overwrite_file = true → cfg.dry_run = false → cfg.operation = Operation.COPY →
       process_one cfg op info file fs =
         ⟨Except.ok (), { info with file_path := file }, nf :: fs,
          [Event.hookSkip file false, Event.hookRename file (rn { info with file_path := file }),
           Event.printOp op file nf, Event.fsCopy file nf, Event.hookPost nf]⟩) ∧
    (cfg.overwrite_file = true → cfg.dry_run = false → cfg.operation = Operation.MOVE →
       process_one cfg op info file fs =
         ⟨Except.ok (), { info with file_path := file }, nf :: fs.erase file,
          [Event.hookSkip file false, Event.hookRename file (rn { info with file_path := file }),
           Event.printOp op file nf, Event.fsMove file nf, Event.hookPost nf]⟩) := by
  have hex2 : nf ∈ fs := by simpa using hex
  refine ⟨?_, ?_, ?_⟩
  · intro how
    unfold process_one
    rw [hsk, hrn, hpp]
    simp [hns, how, ← hnf, hex2]
  · intro how hdr hop
    unfold process_one
    rw [hsk, hrn, hpp]
    simp [hns, how, ← hnf, hex2, hdr, hop]
  · intro how hdr hop
    unfold process_one
    rw [hsk, hrn, hpp]
    simp [hns, how, ← hnf, hex2, hdr, hop]

/-- C1 witness: the conflict-skip case at a concrete destination that already
exists. -/
theorem conflict_policy_witness :
    process_one cfgHooks "copying" infoT "a.txt" ["out\\a.txt"] =
      ⟨Except.ok (), { infoT with file_path := "a.txt" }, ["out\\a.txt"],
       [Event.hookSkip "a.txt" false, Event.hookRename "a.txt" "",
        Event.printOp "copying" "a.txt" "out\\a.txt", Event.hookPost "out\\a.txt"]⟩ :=
  (conflict_policy cfgHooks "copying" "a.txt" infoT ["out\\a.txt"] skFalse rnEmpty ppNoop
    "out\\a.txt" rfl rfl rfl rfl rfl rfl).1 rfl

/-- C2 counterexample: a dry run with a post-process hook assigned still
invokes the post-processor, contradicting the claim that dry runs never invoke
the post-processor's side effects: the post-process call in the source is not
guarded by dry_run. -/
theorem dry_run_no_fs_cex :
    cfgDry.dry_run = true ∧
    Event.hookPost "out\\a.txt" ∈ (send_to testEnv cfgDry ["a.txt"] []).events := by
  refine ⟨rfl, ?_⟩
  decide

/-- C2 (amended): a run with dry_run true creates no directory and performs no
move or copy, whatever the file list and hook outputs: the resulting filesystem
equals the initial one and the event trace contains no filesystem event; the
post-processor, however, is still invoked for every file that reaches the end
of the loop body. -/
theorem dry_run_no_fs (env : SendToEnv) (cfg : Cfg) (files : List String) (fs0 : FS)
    (h : cfg.dry_run = true) :
    (send_to env cfg files fs0).fs = fs0 ∧
    (send_to env cfg files fs0).events.all (fun e => !fsEvent e) = true := by
  unfold send_to
  by_cases hv : script_maj_ver ≠ cfg.version
  · simp [hv]
  · simp only [hv, if_false]
    by_cases hl : files.length = 0
    · simp [hl]
    · simp only [hl, if_false]
      cases hd : determine_date env.dateEnv cfg.ask_for_date cfg.date_fmt env.date_input with
      | error e => simp
      | ok date =>
        have hrs := resolve_subdir_dry cfg
          { file_path := "", dst_path := cfg.dst_path,
            date := date, desc := if cfg.ask_for_desc then env.desc_input else "" } fs0 h
        rcases hr : resolve_subdir cfg
          { file_path := "", dst_path := cfg.dst_path,
            date := date, desc := if cfg.ask_for_desc then env.desc_input else "" } fs0 with
          ⟨i2, fs1, evs1⟩
        rw [hr] at hrs
        simp only at hrs
        have hpf := process_files_dry cfg (operation_to_str cfg.operation).1 h files i2 fs1
        rcases hq : process_files cfg (operation_to_str cfg.operation).1 files i2 fs1 with
          ⟨out, fs2, evs2⟩
        rw [hq] at hpf
        simp only at hpf
        simp only [hr, hq]
        constructor
        · simp [hpf.1, hrs.1]
        · simp only [List.all_cons, List.all_append, hrs.2, hpf.2]
          rfl

/-- C2 witness: a concrete one-file dry run. -/
theorem dry_run_no_fs_witness :
    (send_to testEnv cfgDry ["a.txt"] []).fs = [] ∧
    (send_to testEnv cfgDry ["a.txt"] []).events.all (fun e => !fsEvent e) = true :=
  dry_run_no_fs testEnv cfgDry ["a.txt"] [] rfl

/-- C9: for a non-skipped file, when the rename hook returns the empty string
the destination recorded on the operation line is the effective destination
path joined by a backslash to the file's original base name, extension
included; when it returns a nonempty string the destination uses exactly that
string as the file name. -/
theorem rename_policy (cfg : Cfg) (op file : String) (info : Info) (fs : FS)
    (sk : Info → Bool) (rn : Info → String)
    (hsk : cfg.skip = some sk) (hrn : cfg.rename = some rn)
    (hns : sk { info with file_path := file } = false) :
    (rn { info with file_path := file } = "" →
       Event.printOp op file (info.dst_path ++ "\\" ++ basename file) ∈
         (process_one cfg op info file fs).events) ∧
    (∀ s, rn { info with file_path := file } = s → s ≠ "" →
       Event.printOp op file (info.dst_path ++ "\\" ++ s) ∈
         (process_one cfg op info file fs).events) := by
  constructor
  · intro he
    have hm := printOp_mem cfg op file info fs sk rn hsk hrn hns
    rw [he] at hm
    simpa using hm
  · intro s hs hne
    have hm := printOp_mem cfg op file info fs sk rn hsk hrn hns
    rw [hs, if_neg hne] at hm
    exact hm

/-- C9 witness: an empty-string rename hook keeps the original base name. -/
theorem rename_policy_witness :
    Event.printOp "copying" "a.txt" ("out" ++ "\\" ++ basename "a.txt") ∈
      (process_one cfgHooks "copying" infoT "a.txt" []).events :=
  (rename_policy cfgHooks "copying" "a.txt" infoT [] skFalse rnEmpty rfl rfl rfl).1 rfl

/-- C10: both path joins the engine performs use the literal backslash
character: the subdirectory stage sets the effective destination path to the
configured destination joined to the hook's name by a backslash, and the
per-file destination is the effective destination path joined to the resolved
file name by a backslash.  The embedding has no platform parameter because the
source writes the separator as a string literal rather than consulting the
platform. -/
theorem backslash_path_join (cfg : Cfg) (op file : String) (info : Info) (fs fs2 : FS)
    (sd : Info → String) (sk : Info → Bool) (rn : Info → String)
    (hsd : cfg.subdir = some sd) (hname : sd info ≠ "")
    (hsk : cfg.skip = some sk) (hrn : cfg.rename = some rn)
    (hns : sk { info with file_path := file } = false) :
    (resolve_subdir cfg info fs).1.dst_path = cfg.dst_path ++ "\\" ++ sd info ∧
    Event.printOp op file (info.dst_path ++ "\\" ++
      (if rn { info with file_path := file } = "" then basename file
       else rn { info with file_path := file })) ∈ (process_one cfg op info file fs2).events := by
  constructor
  · unfold resolve_subdir
    rw [hsd]
    by_cases hdr : cfg.dry_run = false
    · simp only [ne_eq, hname, not_false_eq_true, if_true, hdr]
      split <;> rfl
    · simp [hname, hdr]
  · exact printOp_mem cfg op file info fs2 sk rn hsk hrn hns

/-- C10 witness: a fixed subdirectory name and an original-name file. -/
theorem backslash_path_join_witness :
    (resolve_subdir cfgSub infoT []).1.dst_path = "out" ++ "\\" ++ "sub" ∧
    Event.printOp "copying" "a.txt" ("out" ++ "\\" ++
      (if rnEmpty { infoT with file_path := "a.txt" } = "" then basename "a.txt"
       else rnEmpty { infoT with file_path := "a.txt" })) ∈
      (process_one cfgSub "copying" infoT "a.txt" []).events :=
  backslash_path_join cfgSub "copying" "a.txt" infoT [] [] sdNamed skFalse rnEmpty
    rfl (by decide) rfl rfl rfl

end SendTo
